import Mathlib

/-
Shallow embedding of the ist-hyt driver crate (src/lib.rs, src/measurement.rs,
src/error.rs, src/mode.rs), and proofs about its frame decoding, scaling
arithmetic and mode transitions.

Machine integers are modelled as `Nat` / `Int` with explicit reductions
`% 2^32` / `% 2^64` at the points where the Rust code performs (possibly
wrapping) `u32` / `u64` arithmetic, and an explicit two's-complement
reinterpretation where the code casts (`as u32`, `as i32`).
-/

set_option maxRecDepth 10000

namespace IstHyt

/-- Width constant of the unsigned 32-bit integer type, 2^32. -/
def U32 : Nat := 4294967296

/-- Width constant of the unsigned 64-bit integer type, 2^64. -/
def U64 : Nat := 18446744073709551616

/-- Smallest signed 32-bit integer value. -/
def I32_MIN : Int := -2147483648

/-- Largest signed 32-bit integer value. -/
def I32_MAX : Int := 2147483647

/-- Errors originating from the crate itself (src/error.rs, enum HytError). -/
inductive HytError where
  | MeasurementTakenInCommandMode
  | ScaleValueOutOfBounds
deriving DecidableEq, Repr

/-- General error type (src/error.rs, enum Error<I2C>): bus read errors, bus
write errors, and crate-internal errors. The transport's associated read and
write error types are the parameters `R` and `W`. -/
inductive Error (R W : Type) where
  | I2CRead : R → Error R W
  | I2CWrite : W → Error R W
  | Hyt : HytError → Error R W
deriving DecidableEq

/-- A single measurement response wrapping the raw 4-byte frame
(src/measurement.rs, struct Measurement { raw: [u8; 4] }). The four bytes
`raw[0] .. raw[3]` are the fields `b0 .. b3`. -/
structure Measurement where
  b0 : Nat
  b1 : Nat
  b2 : Nat
  b3 : Nat
deriving DecidableEq, Repr

/-- Bytes of a measurement frame are `u8` values. -/
def Measurement.Valid (m : Measurement) : Prop :=
  m.b0 < 256 ∧ m.b1 < 256 ∧ m.b2 < 256 ∧ m.b3 < 256

instance (m : Measurement) : Decidable m.Valid := by
  unfold Measurement.Valid; infer_instance

/-- Constant `RAW_VALUE_MAX: u16 = 0x3fff` from src/measurement.rs. -/
def RAW_VALUE_MAX : Nat := 0x3fff

/-- Decoder `Measurement::from_raw`: fails iff the command-mode bit
(bit 7 of byte 0) is set, otherwise wraps the four bytes unchanged. -/
def Measurement.from_raw (b0 b1 b2 b3 : Nat) : Except HytError Measurement :=
  if b0 &&& 128 = 0 then
    Except.ok ⟨b0, b1, b2, b3⟩
  else
    Except.error HytError.MeasurementTakenInCommandMode

/-- Accessor `Measurement::is_stale`: bit 6 of byte 0. -/
def Measurement.is_stale (m : Measurement) : Bool :=
  m.b0 &&& 64 != 0

/-- Accessor `Measurement::humidity_raw`: the 14-bit field
`((raw[0] & 0b0011_1111) as u16) << 8 | raw[1] as u16`. -/
def Measurement.humidity_raw (m : Measurement) : Nat :=
  ((m.b0 &&& 63) <<< 8) ||| m.b1

/-- Accessor `Measurement::temperature_raw`: the 14-bit field
`(raw[2] as u16) << 6 | (raw[3] as u16) >> 2`. -/
def Measurement.temperature_raw (m : Measurement) : Nat :=
  (m.b2 <<< 6) ||| (m.b3 >>> 2)

/-- Local `range` of `Measurement::value_scaled`: the Rust expression
`max.wrapping_sub(min) as u32`, i.e. wrapping 16-bit signed subtraction
followed by sign-extending reinterpretation as `u32`. -/
def rangeU32 (min max : Int) : Nat :=
  ((((max - min) + 32768) % 65536 - 32768) % (U32 : Int)).toNat

/-- Truncating cast `as i32` applied to a signed 64-bit intermediate value:
keep the low 32 bits and reinterpret them as a signed 32-bit value. -/
def i32_of_i64 (x : Int) : Int :=
  (x + 2147483648) % (U32 : Int) - 2147483648

/-- Local `num` (and, at `raw = RAW_VALUE_MAX`, local `max_num`) of
`Measurement::value_scaled`: the `u64` value
`u64::from(scale) * u64::from(raw * range) + u64::from(RAW_VALUE_MAX / 2)`,
where `raw * range` is (wrapping) `u32` arithmetic. -/
def valueNum (raw : Nat) (min max : Int) (scale : Nat) : Nat :=
  (scale * ((raw * rangeU32 min max) % U32) + RAW_VALUE_MAX / 2) % U64

/-- Signed 64-bit result `((num / u64::from(RAW_VALUE_MAX)) as i64) + min_scaled`
of `Measurement::value_scaled` before the final `as i32` cast. At
`raw = RAW_VALUE_MAX` this is exactly the value whose `i32`-representability
the function checks. -/
def valueI64 (raw : Nat) (min max : Int) (scale : Nat) : Int :=
  ((valueNum raw min max scale / RAW_VALUE_MAX : Nat) : Int) + (scale : Int) * min

/-- Core scaling routine `Measurement::value_scaled`. The `i32::try_from`
representability check on the worst-case value (at `raw = RAW_VALUE_MAX`)
decides between `Ok` and `Err(ScaleValueOutOfBounds)`; on success the result
for the requested `raw` is computed and truncated with `as i32`. The two
`assert!`s of the source (`max > min`, `raw <= RAW_VALUE_MAX`) appear as
hypotheses of the theorems below. -/
def Measurement.value_scaled (raw : Nat) (min max : Int) (scale : Nat) :
    Except HytError Int :=
  if I32_MIN ≤ valueI64 RAW_VALUE_MAX min max scale ∧
      valueI64 RAW_VALUE_MAX min max scale ≤ I32_MAX then
    Except.ok (i32_of_i64 (valueI64 raw min max scale))
  else
    Except.error HytError.ScaleValueOutOfBounds

/-- Accessor `Measurement::humidity_scaled`. -/
def Measurement.humidity_scaled (m : Measurement) (scale : Nat) :
    Except HytError Int :=
  Measurement.value_scaled m.humidity_raw 0 100 scale

/-- Accessor `Measurement::temperature_scaled`. -/
def Measurement.temperature_scaled (m : Measurement) (scale : Nat) :
    Except HytError Int :=
  Measurement.value_scaled m.temperature_raw (-40) 125 scale

/-- Accessor `Measurement::humidity`, i.e. `humidity_scaled(1).unwrap()`.
The `getD` default is never reached: see `humidity_scaled_one_ok`. -/
def Measurement.humidity (m : Measurement) : Int :=
  (m.humidity_scaled 1).toOption.getD 0

/-- Accessor `Measurement::temperature`, i.e. `temperature_scaled(1).unwrap()`.
The `getD` default is never reached: see `temperature_scaled_one_ok`. -/
def Measurement.temperature (m : Measurement) : Int :=
  (m.temperature_scaled 1).toOption.getD 0

/-- Fixed-point accessor `Measurement::humidity_i8f24` ("i8f24" feature):
the `I8F24` bit pattern `humidity_scaled(1 << 24).unwrap()`. -/
def Measurement.humidity_i8f24 (m : Measurement) : Int :=
  (m.humidity_scaled (1 <<< 24)).toOption.getD 0

/-- Fixed-point accessor `Measurement::temperature_i8f24` ("i8f24" feature):
the `I8F24` bit pattern `temperature_scaled(1 << 24).unwrap()`. -/
def Measurement.temperature_i8f24 (m : Measurement) : Int :=
  (m.temperature_scaled (1 <<< 24)).toOption.getD 0

end IstHyt

deriving instance DecidableEq for Except

namespace IstHyt

namespace Mode

/-- Marker type for normal mode (src/lib.rs, pub mod mode). -/
inductive Normal where
  | mk
deriving DecidableEq

/-- Marker type for command mode (src/lib.rs, pub mod mode). -/
inductive Command where
  | mk
deriving DecidableEq

end Mode

/-- The main sensor interface (src/lib.rs, struct Hyt<I2C, Mode>): owns the
transport resource and the bus address; the mode appears only as a
type-level tag. -/
structure Hyt (I2C : Type) (Mode : Type) where
  i2c : I2C
  address : Nat
deriving DecidableEq

/-- Outcome of calling a Rust function: either it returns a value, or it
diverges by panicking with a message. The `todo!()` placeholder diverges
with the message "not yet implemented". -/
inductive RustOutcome (α : Type) where
  | returns : α → RustOutcome α
  | panicked : String → RustOutcome α
deriving DecidableEq

/-- Constructor `Hyt::new` with the factory default bus address 0x28. -/
def Hyt.new {I2C : Type} (i2c : I2C) : Hyt I2C Mode.Normal :=
  ⟨i2c, 0x28⟩

/-- Transition `Hyt::enter_command_mode` (src/lib.rs). Its Rust result type is
`Result<Hyt<I2C, Command>, (Self, Error<I2C>)>` (error read/write payload
types `R` and `W` passed explicitly here), but its body is `todo!()`, so
every call diverges instead of producing a value of that type. -/
def Hyt.enter_command_mode (I2C R W : Type) (_self : Hyt I2C Mode.Normal) :
    RustOutcome (Except (Hyt I2C Mode.Normal × Error R W) (Hyt I2C Mode.Command)) :=
  RustOutcome.panicked "not yet implemented"

/-- Transition `Hyt::enter_normal_mode` (src/lib.rs). Also `todo!()`. -/
def Hyt.enter_normal_mode (I2C R W : Type) (_self : Hyt I2C Mode.Command) :
    RustOutcome (Except (Hyt I2C Mode.Command × Error R W) (Hyt I2C Mode.Normal)) :=
  RustOutcome.panicked "not yet implemented"

end IstHyt

namespace IstHyt

theorem rangeU32_eq (min max : Int) (h2 : min < max) (h4 : max - min ≤ 32767) :
    rangeU32 min max = (max - min).toNat := by
  unfold rangeU32 U32
  omega

theorem i32_of_i64_eq_self (x : Int) (h1 : I32_MIN ≤ x) (h2 : x ≤ I32_MAX) :
    i32_of_i64 x = x := by
  unfold i32_of_i64 U32
  simp only [I32_MIN, I32_MAX] at h1 h2
  omega

theorem valueNum_eq (raw : Nat) (min max : Int) (scale : Nat)
    (hraw : raw ≤ 16383) (h2 : min < max) (h4 : max - min ≤ 32767)
    (hs : scale < U32) :
    valueNum raw min max scale = scale * (raw * (max - min).toNat) + 8191 := by
  have hr : (max - min).toNat ≤ 32767 := by omega
  have hb : raw * (max - min).toNat ≤ 16383 * 32767 := Nat.mul_le_mul hraw hr
  have hs' : scale ≤ 4294967295 := by unfold U32 at hs; omega
  have hb2 : scale * (raw * (max - min).toNat) ≤ 4294967295 * (16383 * 32767) :=
    Nat.mul_le_mul hs' hb
  unfold valueNum RAW_VALUE_MAX
  rw [rangeU32_eq min max h2 h4]
  rw [Nat.mod_eq_of_lt (lt_of_le_of_lt hb (by norm_num [U32]))]
  rw [Nat.mod_eq_of_lt (lt_of_le_of_lt (Nat.add_le_add_right hb2 (16383 / 2))
    (by norm_num [U64]))]

theorem valueI64_eq (raw : Nat) (min max : Int) (scale : Nat)
    (hraw : raw ≤ 16383) (h2 : min < max) (h4 : max - min ≤ 32767)
    (hs : scale < U32) :
    valueI64 raw min max scale =
      ((scale : Int) * (raw : Int) * (max - min) + 8191) / 16383 +
        (scale : Int) * min := by
  unfold valueI64 RAW_VALUE_MAX
  rw [valueNum_eq raw min max scale hraw h2 h4 hs]
  congr 1
  have hmm : ((max - min).toNat : Int) = max - min := Int.toNat_of_nonneg (by omega)
  push_cast [hmm]
  congr 1
  ring

theorem le_valueI64 (raw : Nat) (min max : Int) (scale : Nat) :
    (scale : Int) * min ≤ valueI64 raw min max scale := by
  unfold valueI64
  exact le_add_of_nonneg_left (Int.natCast_nonneg _)

theorem valueI64_mono (min max : Int) (scale : Nat) (raw1 raw2 : Nat)
    (h12 : raw1 ≤ raw2) (hraw2 : raw2 ≤ 16383) (h2 : min < max)
    (h4 : max - min ≤ 32767) (hs : scale < U32) :
    valueI64 raw1 min max scale ≤ valueI64 raw2 min max scale := by
  unfold valueI64
  have hnum : valueNum raw1 min max scale ≤ valueNum raw2 min max scale := by
    rw [valueNum_eq raw1 min max scale (le_trans h12 hraw2) h2 h4 hs,
      valueNum_eq raw2 min max scale hraw2 h2 h4 hs]
    exact Nat.add_le_add_right
      (Nat.mul_le_mul_left scale (Nat.mul_le_mul_right _ h12)) 8191
  have hdiv : valueNum raw1 min max scale / RAW_VALUE_MAX ≤
      valueNum raw2 min max scale / RAW_VALUE_MAX := Nat.div_le_div_right hnum
  exact add_le_add_right (by exact_mod_cast hdiv) _

theorem value_scaled_ok_of (raw : Nat) (min max : Int) (scale : Nat)
    (h : I32_MIN ≤ valueI64 RAW_VALUE_MAX min max scale ∧
         valueI64 RAW_VALUE_MAX min max scale ≤ I32_MAX) :
    Measurement.value_scaled raw min max scale
      = Except.ok (i32_of_i64 (valueI64 raw min max scale)) := by
  unfold Measurement.value_scaled
  rw [if_pos h]

theorem value_scaled_err_of (raw : Nat) (min max : Int) (scale : Nat)
    (h : ¬(I32_MIN ≤ valueI64 RAW_VALUE_MAX min max scale ∧
           valueI64 RAW_VALUE_MAX min max scale ≤ I32_MAX)) :
    Measurement.value_scaled raw min max scale
      = Except.error HytError.ScaleValueOutOfBounds := by
  unfold Measurement.value_scaled
  rw [if_neg h]

theorem value_scaled_ok_val (raw : Nat) (min max : Int) (scale : Nat) (v : Int)
    (hraw : raw ≤ 16383) (h2 : min < max) (h4 : max - min ≤ 32767)
    (hs : scale < U32) (hmin : I32_MIN ≤ (scale : Int) * min)
    (hok : Measurement.value_scaled raw min max scale = Except.ok v) :
    v = valueI64 raw min max scale := by
  by_cases hc : I32_MIN ≤ valueI64 RAW_VALUE_MAX min max scale ∧
      valueI64 RAW_VALUE_MAX min max scale ≤ I32_MAX
  · rw [value_scaled_ok_of raw min max scale hc] at hok
    injection hok with hv
    rw [← hv]
    apply i32_of_i64_eq_self
    · exact le_trans hmin (le_valueI64 raw min max scale)
    · refine le_trans ?_ hc.2
      exact valueI64_mono min max scale raw RAW_VALUE_MAX hraw (by norm_num [RAW_VALUE_MAX]) h2 h4 hs
  · rw [value_scaled_err_of raw min max scale hc] at hok
    exact absurd hok (by simp)

end IstHyt

namespace IstHyt

theorem shiftLeft_lor_eq_add (x y n : Nat) (h : y < 2 ^ n) :
    (x <<< n) ||| y = x * 2 ^ n + y := by
  rw [Nat.shiftLeft_eq, Nat.mul_comm x (2 ^ n), ← Nat.mul_add_lt_is_or h x,
    Nat.mul_comm (2 ^ n) x]

theorem humidity_raw_eq (m : Measurement) (hb1 : m.b1 < 256) :
    m.humidity_raw = (m.b0 &&& 63) * 256 + m.b1 := by
  unfold Measurement.humidity_raw
  rw [shiftLeft_lor_eq_add _ _ 8 (by simpa using hb1)]
  norm_num

theorem temperature_raw_eq (m : Measurement) (hb3 : m.b3 < 256) :
    m.temperature_raw = m.b2 * 64 + m.b3 >>> 2 := by
  unfold Measurement.temperature_raw
  have h : m.b3 >>> 2 < 2 ^ 6 := by
    rw [Nat.shiftRight_eq_div_pow]
    show m.b3 / 4 < 64
    omega
  rw [shiftLeft_lor_eq_add _ _ 6 h]
  norm_num

theorem humidity_raw_le (m : Measurement) (hb1 : m.b1 < 256) :
    m.humidity_raw ≤ 16383 := by
  rw [humidity_raw_eq m hb1]
  have h63 : m.b0 &&& 63 ≤ 63 := Nat.and_le_right
  omega

theorem temperature_raw_le (m : Measurement) (hb2 : m.b2 < 256)
    (hb3 : m.b3 < 256) :
    m.temperature_raw ≤ 16383 := by
  rw [temperature_raw_eq m hb3]
  have h : m.b3 >>> 2 ≤ 63 := by
    rw [Nat.shiftRight_eq_div_pow]
    show m.b3 / 4 ≤ 63
    omega
  omega

theorem and_128_eq (b0 : Nat) : b0 &&& 128 = (b0.testBit 7).toNat * 128 := by
  have h := Nat.and_two_pow b0 7
  norm_num at h
  exact h

theorem and_64_eq (b0 : Nat) : b0 &&& 64 = (b0.testBit 6).toNat * 64 := by
  have h := Nat.and_two_pow b0 6
  norm_num at h
  exact h

end IstHyt

namespace IstHyt

theorem and_128_eq_zero_iff (b0 : Nat) :
    (b0 &&& 128 = 0) ↔ b0.testBit 7 = false := by
  rw [and_128_eq b0]
  cases b0.testBit 7 <;> simp

/-- C3: decoding a 4-byte frame returns `MeasurementTakenInCommandMode` (and
constructs no Measurement) if and only if bit 7 of byte 0 is set; otherwise it
returns a Measurement wrapping the four bytes unchanged, with no further
validation or normalization. -/
theorem from_raw_command_mode (b0 b1 b2 b3 : Nat) :
    (Measurement.from_raw b0 b1 b2 b3 =
        Except.error HytError.MeasurementTakenInCommandMode ↔
      b0.testBit 7 = true) ∧
    (b0.testBit 7 = false →
      Measurement.from_raw b0 b1 b2 b3 = Except.ok ⟨b0, b1, b2, b3⟩) := by
  unfold Measurement.from_raw
  rw [and_128_eq b0]
  cases b0.testBit 7 <;> simp

/-- C4: for a Measurement built from bytes `b0..b3`, `humidity_raw` is the
14-bit value `(b0 &&& 0x3f) * 256 + b1`, `temperature_raw` is the 14-bit value
`b2 * 64 + (b3 >>> 2)` (low two bits of `b3` ignored), and both lie in
`[0, 16383]`. -/
theorem raw_fields_spec (m : Measurement) (h : m.Valid) :
    m.humidity_raw = (m.b0 &&& 63) * 256 + m.b1 ∧
    m.temperature_raw = m.b2 * 64 + m.b3 >>> 2 ∧
    m.humidity_raw ≤ 16383 ∧ m.temperature_raw ≤ 16383 := by
  obtain ⟨hb0, hb1, hb2, hb3⟩ := h
  exact ⟨humidity_raw_eq m hb1, temperature_raw_eq m hb3,
    humidity_raw_le m hb1, temperature_raw_le m hb2 hb3⟩

/-- Witness for C4 at the all-ones frame. -/
theorem raw_fields_spec_witness :
    (Measurement.mk 255 255 255 255).humidity_raw =
        (255 &&& 63) * 256 + 255 ∧
    (Measurement.mk 255 255 255 255).temperature_raw =
        255 * 64 + 255 >>> 2 ∧
    (Measurement.mk 255 255 255 255).humidity_raw ≤ 16383 ∧
    (Measurement.mk 255 255 255 255).temperature_raw ≤ 16383 :=
  raw_fields_spec ⟨255, 255, 255, 255⟩ (by decide)

/-- C8: the scaling routine maps the endpoints of the two physical ranges at
scale 1 exactly to the range bounds. -/
theorem value_scaled_endpoints :
    Measurement.value_scaled 0 0 100 1 = Except.ok 0 ∧
    Measurement.value_scaled 16383 0 100 1 = Except.ok 100 ∧
    Measurement.value_scaled 0 (-40) 125 1 = Except.ok (-40) ∧
    Measurement.value_scaled 16383 (-40) 125 1 = Except.ok 125 := by
  refine ⟨by decide, by decide, by decide, by decide⟩

/-- C9: a frame with bit 7 of byte 0 clear decodes successfully, and
`is_stale` on the decoded Measurement is true exactly when bit 6 of byte 0 is
set; `is_stale` is a pure function of the wrapped bytes, so repeated queries
return the same answer. -/
theorem is_stale_spec (b0 b1 b2 b3 : Nat) (h7 : b0.testBit 7 = false) :
    Measurement.from_raw b0 b1 b2 b3 = Except.ok ⟨b0, b1, b2, b3⟩ ∧
    ((Measurement.mk b0 b1 b2 b3).is_stale = true ↔ b0.testBit 6 = true) := by
  constructor
  · exact (from_raw_command_mode b0 b1 b2 b3).2 h7
  · show (b0 &&& 64 != 0) = true ↔ _
    rw [and_64_eq b0]
    cases b0.testBit 6 <;> simp

/-- Witness for C9 at a stale frame (byte 0 = 0x40). -/
theorem is_stale_spec_witness :
    Measurement.from_raw 64 0 0 0 = Except.ok ⟨64, 0, 0, 0⟩ ∧
    ((Measurement.mk 64 0 0 0).is_stale = true ↔ (64 : Nat).testBit 6 = true) :=
  is_stale_spec 64 0 0 0 (by decide)

/-- C10 counterexample: both mode transitions diverge via the `todo!()`
placeholder instead of returning a `Result`; in particular the call does not
return the original handle paired with any of the four possible error values
of `Error Unit Unit`. -/
theorem enter_mode_panics_cx :
    Hyt.enter_command_mode Unit Unit Unit (Hyt.new ()) =
      RustOutcome.panicked "not yet implemented" ∧
    Hyt.enter_normal_mode Unit Unit Unit ⟨(), 40⟩ =
      RustOutcome.panicked "not yet implemented" ∧
    Hyt.enter_command_mode Unit Unit Unit (Hyt.new ()) ≠
      RustOutcome.returns (Except.error (Hyt.new (),
        Error.Hyt HytError.MeasurementTakenInCommandMode)) ∧
    Hyt.enter_command_mode Unit Unit Unit (Hyt.new ()) ≠
      RustOutcome.returns (Except.error (Hyt.new (),
        Error.Hyt HytError.ScaleValueOutOfBounds)) ∧
    Hyt.enter_command_mode Unit Unit Unit (Hyt.new ()) ≠
      RustOutcome.returns (Except.error (Hyt.new (), Error.I2CRead ())) ∧
    Hyt.enter_command_mode Unit Unit Unit (Hyt.new ()) ≠
      RustOutcome.returns (Except.error (Hyt.new (), Error.I2CWrite ())) := by
  refine ⟨rfl, rfl, by decide, by decide, by decide, by decide⟩

/-- C10 (amended): every call to `enter_command_mode` on a Normal-mode handle
and every call to `enter_normal_mode` on a Command-mode handle diverges via
the `todo!()` placeholder with message "not yet implemented"; the call never
returns, so the original handle is consumed and not handed back. -/
theorem enter_mode_always_panics (I2C R W : Type)
    (h : Hyt I2C Mode.Normal) (g : Hyt I2C Mode.Command) :
    Hyt.enter_command_mode I2C R W h =
      RustOutcome.panicked "not yet implemented" ∧
    Hyt.enter_normal_mode I2C R W g =
      RustOutcome.panicked "not yet implemented" :=
  ⟨rfl, rfl⟩

end IstHyt

namespace IstHyt

/-- Witness for C3 at a command-mode frame (byte 0 = 0x80). -/
theorem from_raw_command_mode_witness :
    (Measurement.from_raw 128 1 2 3 =
        Except.error HytError.MeasurementTakenInCommandMode ↔
      (128 : Nat).testBit 7 = true) ∧
    ((128 : Nat).testBit 7 = false →
      Measurement.from_raw 128 1 2 3 = Except.ok ⟨128, 1, 2, 3⟩) :=
  from_raw_command_mode 128 1 2 3

/-- C1 counterexample: at `raw = 0`, `min = -32768`, `max = -1`,
`scale = 131072` the representability check passes (the worst-case value
`scale * max = -131072` fits in `i32`), but the value actually returned is the
`as i32` truncation of `-2^32`, namely `0`, not the exact integer
`floor((scale*raw*(max-min) + 8191) / 16383) + scale*min = -2^32`. -/
theorem value_scaled_truncates_cx :
    Measurement.value_scaled 0 (-32768) (-1) 131072 = Except.ok 0 ∧
    ((131072 : Int) * (0 : Int) * ((-1 : Int) - (-32768 : Int)) + 8191) / 16383 +
      (131072 : Int) * (-32768 : Int) = -4294967296 ∧
    (0 : Int) ≠ -4294967296 := by
  refine ⟨by decide, by decide, by decide⟩

/-- C1 (amended): for raw in [0, 16383], an i16 pair (min, max) with
max > min whose difference does not overflow i16 (max - min ≤ 32767), and a
positive u32 scale such that scale * min is not below i32's minimum, whenever
`value_scaled` returns a value v, v is the exact integer
`floor((scale * raw * (max - min) + 8191) / 16383) + scale * min`. -/
theorem value_scaled_exact (raw : Nat) (min max : Int) (scale : Nat) (v : Int)
    (hraw : raw ≤ 16383) (hmin : -32768 ≤ min) (hlt : min < max)
    (hmax : max ≤ 32767) (hpos : 1 ≤ scale) (hs : scale < U32)
    (hrange : max - min ≤ 32767) (hms : I32_MIN ≤ (scale : Int) * min)
    (hok : Measurement.value_scaled raw min max scale = Except.ok v) :
    v = ((scale : Int) * (raw : Int) * (max - min) + 8191) / 16383 +
      (scale : Int) * min := by
  rw [value_scaled_ok_val raw min max scale v hraw hlt hrange hs hms hok]
  exact valueI64_eq raw min max scale hraw hlt hrange hs

/-- Witness for C1 at the spec's worked example: raw humidity 0x2000 with
(min, max, scale) = (0, 100, 100) yields exactly 5000. -/
theorem value_scaled_exact_witness :
    (5000 : Int) = (((100 : Nat) : Int) * ((8192 : Nat) : Int) * ((100 : Int) - 0) + 8191) / 16383 +
      ((100 : Nat) : Int) * 0 :=
  value_scaled_exact 8192 0 100 100 5000 (by decide) (by decide) (by decide)
    (by decide) (by decide) (by decide) (by decide) (by decide) (by decide)

end IstHyt

namespace IstHyt

/-- C2: for fixed (min, max, scale) with max > min, success or failure of
`value_scaled` is independent of raw: it is `Ok` for every raw in [0, 16383]
or `Err(ScaleValueOutOfBounds)` for every raw in [0, 16383], and it is `Err`
exactly when the scaled result computed by substituting raw = 16383 (the
checked worst case) does not fit in the signed 32-bit output range — even if
the result for the particular raw passed in would fit. -/
theorem value_scaled_raw_independent (min max : Int) (scale : Nat)
    (raw1 raw2 : Nat) (hmin : -32768 ≤ min) (hlt : min < max)
    (hmax : max ≤ 32767) (hs : scale < U32)
    (h1 : raw1 ≤ 16383) (h2 : raw2 ≤ 16383) :
    ((∃ v, Measurement.value_scaled raw1 min max scale = Except.ok v) ↔
      (∃ v, Measurement.value_scaled raw2 min max scale = Except.ok v)) ∧
    (Measurement.value_scaled raw1 min max scale =
        Except.error HytError.ScaleValueOutOfBounds ↔
      ¬(I32_MIN ≤ valueI64 16383 min max scale ∧
        valueI64 16383 min max scale ≤ I32_MAX)) := by
  by_cases hc : I32_MIN ≤ valueI64 RAW_VALUE_MAX min max scale ∧
      valueI64 RAW_VALUE_MAX min max scale ≤ I32_MAX
  · refine ⟨⟨fun _ => ⟨_, value_scaled_ok_of raw2 min max scale hc⟩,
      fun _ => ⟨_, value_scaled_ok_of raw1 min max scale hc⟩⟩, ?_⟩
    rw [value_scaled_ok_of raw1 min max scale hc]
    constructor
    · intro hcontra
      exact absurd hcontra (by simp)
    · intro hcontra
      exact absurd hc hcontra
  · refine ⟨⟨fun hex => ?_, fun hex => ?_⟩, ?_⟩
    · obtain ⟨v, hv⟩ := hex
      rw [value_scaled_err_of raw1 min max scale hc] at hv
      exact absurd hv (by simp)
    · obtain ⟨v, hv⟩ := hex
      rw [value_scaled_err_of raw2 min max scale hc] at hv
      exact absurd hv (by simp)
    · rw [value_scaled_err_of raw1 min max scale hc]
      simpa using hc

/-- Witness for C2 at (min, max, scale) = (0, 100, 1), raw1 = 0,
raw2 = 16383. -/
theorem value_scaled_raw_independent_witness :
    ((∃ v, Measurement.value_scaled 0 0 100 1 = Except.ok v) ↔
      (∃ v, Measurement.value_scaled 16383 0 100 1 = Except.ok v)) ∧
    (Measurement.value_scaled 0 0 100 1 =
        Except.error HytError.ScaleValueOutOfBounds ↔
      ¬(I32_MIN ≤ valueI64 16383 0 100 1 ∧
        valueI64 16383 0 100 1 ≤ I32_MAX)) :=
  value_scaled_raw_independent 0 100 1 0 16383 (by decide) (by decide)
    (by decide) (by decide) (by decide) (by decide)

/-- C7 counterexample: with (min, max, scale) = (-32768, -1, 131072) the
check passes, yet the returned values decrease in raw: raw = 0 yields 0
(an `as i32` truncation artifact) while raw = 16383 yields -131072. -/
theorem value_scaled_not_monotone_cx :
    Measurement.value_scaled 0 (-32768) (-1) 131072 = Except.ok 0 ∧
    Measurement.value_scaled 16383 (-32768) (-1) 131072 =
      Except.ok (-131072) ∧
    ¬((0 : Int) ≤ -131072) := by
  refine ⟨by decide, by decide, by decide⟩

/-- C7 (amended): for fixed i16 (min, max) with max > min whose difference
does not overflow i16, and positive u32 scale with scale * min not below
i32's minimum, `value_scaled` is non-decreasing in raw on [0, 16383] whenever
both calls return values. -/
theorem value_scaled_monotone (min max : Int) (scale : Nat)
    (raw1 raw2 : Nat) (v1 v2 : Int)
    (hmin : -32768 ≤ min) (hlt : min < max) (hmax : max ≤ 32767)
    (hpos : 1 ≤ scale) (hs : scale < U32)
    (hrange : max - min ≤ 32767) (hms : I32_MIN ≤ (scale : Int) * min)
    (h12 : raw1 ≤ raw2) (h2 : raw2 ≤ 16383)
    (hok1 : Measurement.value_scaled raw1 min max scale = Except.ok v1)
    (hok2 : Measurement.value_scaled raw2 min max scale = Except.ok v2) :
    v1 ≤ v2 := by
  rw [value_scaled_ok_val raw1 min max scale v1 (le_trans h12 h2) hlt hrange
      hs hms hok1,
    value_scaled_ok_val raw2 min max scale v2 h2 hlt hrange hs hms hok2]
  exact valueI64_mono min max scale raw1 raw2 h12 h2 hlt hrange hs

/-- Witness for C7 at (0, 100, 1) with raw1 = 0 ≤ raw2 = 16383. -/
theorem value_scaled_monotone_witness : (0 : Int) ≤ (100 : Int) :=
  value_scaled_monotone 0 100 1 0 16383 0 100 (by decide) (by decide)
    (by decide) (by decide) (by decide) (by decide) (by decide) (by decide)
    (by decide) (by decide) (by decide)

end IstHyt

namespace IstHyt

theorem except_ok_getD {ε α : Type} (x d : α) :
    (Except.ok x : Except ε α).toOption.getD d = x := rfl

theorem humidity_scaled_one_ok (m : Measurement) :
    m.humidity_scaled 1 =
      Except.ok (i32_of_i64 (valueI64 m.humidity_raw 0 100 1)) :=
  value_scaled_ok_of m.humidity_raw 0 100 1 (by decide)

theorem temperature_scaled_one_ok (m : Measurement) :
    m.temperature_scaled 1 =
      Except.ok (i32_of_i64 (valueI64 m.temperature_raw (-40) 125 1)) :=
  value_scaled_ok_of m.temperature_raw (-40) 125 1 (by decide)

theorem humidity_eq (m : Measurement) :
    m.humidity = i32_of_i64 (valueI64 m.humidity_raw 0 100 1) := by
  unfold Measurement.humidity
  rw [humidity_scaled_one_ok m, except_ok_getD]

theorem temperature_eq (m : Measurement) :
    m.temperature = i32_of_i64 (valueI64 m.temperature_raw (-40) 125 1) := by
  unfold Measurement.temperature
  rw [temperature_scaled_one_ok m, except_ok_getD]

theorem valueI64_0_100_1_bounds (raw : Nat) (hraw : raw ≤ 16383) :
    0 ≤ valueI64 raw 0 100 1 ∧ valueI64 raw 0 100 1 ≤ 100 := by
  rw [valueI64_eq raw 0 100 1 hraw (by norm_num) (by norm_num)
    (by norm_num [U32])]
  omega

theorem valueI64_m40_125_1_bounds (raw : Nat) (hraw : raw ≤ 16383) :
    -40 ≤ valueI64 raw (-40) 125 1 ∧ valueI64 raw (-40) 125 1 ≤ 125 := by
  rw [valueI64_eq raw (-40) 125 1 hraw (by norm_num) (by norm_num)
    (by norm_num [U32])]
  omega

/-- C5: for every valid Measurement, `humidity` is the Ok value of
`humidity_scaled 1` and `temperature` is the Ok value of
`temperature_scaled 1` (so the `unwrap()` in both convenience accessors never
fails), with `humidity` in [0, 100] and `temperature` in [-40, 125]. -/
theorem accessors_scale_one (m : Measurement) (h : m.Valid) :
    m.humidity_scaled 1 = Except.ok m.humidity ∧
    m.temperature_scaled 1 = Except.ok m.temperature ∧
    0 ≤ m.humidity ∧ m.humidity ≤ 100 ∧
    -40 ≤ m.temperature ∧ m.temperature ≤ 125 := by
  obtain ⟨hb0, hb1, hb2, hb3⟩ := h
  have hh := humidity_raw_le m hb1
  have ht := temperature_raw_le m hb2 hb3
  have hhb := valueI64_0_100_1_bounds m.humidity_raw hh
  have htb := valueI64_m40_125_1_bounds m.temperature_raw ht
  have hhv : m.humidity = valueI64 m.humidity_raw 0 100 1 := by
    rw [humidity_eq m,
      i32_of_i64_eq_self _ (le_trans (by decide) hhb.1)
        (le_trans hhb.2 (by decide))]
  have htv : m.temperature = valueI64 m.temperature_raw (-40) 125 1 := by
    rw [temperature_eq m,
      i32_of_i64_eq_self _ (le_trans (by decide) htb.1)
        (le_trans htb.2 (by decide))]
  refine ⟨?_, ?_, ?_, ?_, ?_, ?_⟩
  · rw [humidity_scaled_one_ok m, humidity_eq m]
  · rw [temperature_scaled_one_ok m, temperature_eq m]
  · rw [hhv]; exact hhb.1
  · rw [hhv]; exact hhb.2
  · rw [htv]; exact htb.1
  · rw [htv]; exact htb.2

/-- Witness for C5 at the all-zero frame. -/
theorem accessors_scale_one_witness :
    (Measurement.mk 0 0 0 0).humidity_scaled 1 =
      Except.ok (Measurement.mk 0 0 0 0).humidity ∧
    (Measurement.mk 0 0 0 0).temperature_scaled 1 =
      Except.ok (Measurement.mk 0 0 0 0).temperature ∧
    0 ≤ (Measurement.mk 0 0 0 0).humidity ∧
    (Measurement.mk 0 0 0 0).humidity ≤ 100 ∧
    -40 ≤ (Measurement.mk 0 0 0 0).temperature ∧
    (Measurement.mk 0 0 0 0).temperature ≤ 125 :=
  accessors_scale_one ⟨0, 0, 0, 0⟩ (by decide)

end IstHyt

namespace IstHyt

theorem valueI64_16383_0_100 (scale : Nat) (hs : scale ≤ 2 ^ 24) :
    valueI64 16383 0 100 scale = 100 * (scale : Int) := by
  rw [valueI64_eq 16383 0 100 scale (by norm_num) (by norm_num) (by norm_num)
    (by unfold U32; omega)]
  omega

theorem valueI64_16383_m40_125 (scale : Nat) (hs : scale ≤ 2 ^ 24) :
    valueI64 16383 (-40) 125 scale = 125 * (scale : Int) := by
  rw [valueI64_eq 16383 (-40) 125 scale (by norm_num) (by norm_num)
    (by norm_num) (by unfold U32; omega)]
  omega

/-- C6: for every valid Measurement and every scale between 1 and 2^24, both
`humidity_scaled` and `temperature_scaled` return Ok — the wide intermediate
arithmetic does not overflow and the representability check passes — and in
particular the fixed-point accessors that call them with scale 2^24 and
unwrap the result never fail. -/
theorem scaled_ok_up_to_scale24 (m : Measurement) (scale : Nat) (h : m.Valid)
    (h1 : 1 ≤ scale) (h2 : scale ≤ 2 ^ 24) :
    (∃ v, m.humidity_scaled scale = Except.ok v) ∧
    (∃ v, m.temperature_scaled scale = Except.ok v) ∧
    m.humidity_scaled (1 <<< 24) = Except.ok m.humidity_i8f24 ∧
    m.temperature_scaled (1 <<< 24) = Except.ok m.temperature_i8f24 := by
  have hch : I32_MIN ≤ valueI64 RAW_VALUE_MAX 0 100 scale ∧
      valueI64 RAW_VALUE_MAX 0 100 scale ≤ I32_MAX := by
    show I32_MIN ≤ valueI64 16383 0 100 scale ∧
      valueI64 16383 0 100 scale ≤ I32_MAX
    rw [valueI64_16383_0_100 scale h2]
    simp only [I32_MIN, I32_MAX]
    omega
  have hct : I32_MIN ≤ valueI64 RAW_VALUE_MAX (-40) 125 scale ∧
      valueI64 RAW_VALUE_MAX (-40) 125 scale ≤ I32_MAX := by
    show I32_MIN ≤ valueI64 16383 (-40) 125 scale ∧
      valueI64 16383 (-40) 125 scale ≤ I32_MAX
    rw [valueI64_16383_m40_125 scale h2]
    simp only [I32_MIN, I32_MAX]
    omega
  have hokh : m.humidity_scaled (1 <<< 24) =
      Except.ok (i32_of_i64 (valueI64 m.humidity_raw 0 100 (1 <<< 24))) :=
    value_scaled_ok_of m.humidity_raw 0 100 (1 <<< 24) (by decide)
  have hokt : m.temperature_scaled (1 <<< 24) =
      Except.ok (i32_of_i64 (valueI64 m.temperature_raw (-40) 125 (1 <<< 24))) :=
    value_scaled_ok_of m.temperature_raw (-40) 125 (1 <<< 24) (by decide)
  refine ⟨⟨_, value_scaled_ok_of m.humidity_raw 0 100 scale hch⟩,
    ⟨_, value_scaled_ok_of m.temperature_raw (-40) 125 scale hct⟩, ?_, ?_⟩
  · unfold Measurement.humidity_i8f24
    rw [hokh, except_ok_getD]
  · unfold Measurement.temperature_i8f24
    rw [hokt, except_ok_getD]

/-- Witness for C6 at the all-zero frame with scale 100. -/
theorem scaled_ok_up_to_scale24_witness :
    (∃ v, (Measurement.mk 0 0 0 0).humidity_scaled 100 = Except.ok v) ∧
    (∃ v, (Measurement.mk 0 0 0 0).temperature_scaled 100 = Except.ok v) ∧
    (Measurement.mk 0 0 0 0).humidity_scaled (1 <<< 24) =
      Except.ok (Measurement.mk 0 0 0 0).humidity_i8f24 ∧
    (Measurement.mk 0 0 0 0).temperature_scaled (1 <<< 24) =
      Except.ok (Measurement.mk 0 0 0 0).temperature_i8f24 :=
  scaled_ok_up_to_scale24 ⟨0, 0, 0, 0⟩ 100 (by decide) (by decide) (by decide)

end IstHyt

namespace IstHyt

/-- Witness for C10's amended claim at concrete Unit-transport handles. -/
theorem enter_mode_always_panics_witness :
    Hyt.enter_command_mode Unit Unit Unit (Hyt.new ()) =
      RustOutcome.panicked "not yet implemented" ∧
    Hyt.enter_normal_mode Unit Unit Unit ⟨(), 40⟩ =
      RustOutcome.panicked "not yet implemented" :=
  enter_mode_always_panics Unit Unit Unit (Hyt.new ()) ⟨(), 40⟩

end IstHyt
